import Mathlib

/-!
Verification of the fsmtool repository: the FSM intermediate representation,
the Builder (parser) in `fsmtool.py`, and the three generators
(`fsm2plantuml.py`, `fsm2stateflow.py`, `fsm2yaml.py`).

The YAML tree adapter (`yaml_ast_parser.py` plus the external PyYAML library)
is treated as the external collaborator the spec describes: its output is the
tree of scalar / sequence / mapping nodes modelled by `Node` below, and its
failure outcomes are passed in explicitly where a claim is about error
propagation.
-/

namespace FsmTool

/-- A Python value as produced by the tree adapter and by
`FSMParser._node_to_python`: scalar literals (string, int, bool, None),
lists and dicts.  YAML float scalars are outside the model. -/
inductive Value where
  | vstr : String → Value
  | vint : Int → Value
  | vbool : Bool → Value
  | vnull : Value
  | vlist : List Value → Value
  | vmap : List (Value × Value) → Value

mutual
/-- Decidable equality of `Value` (hand-written: the automatic derivation
does not handle the nesting through `List`). -/
def Value.decEq : (a b : Value) → Decidable (a = b)
  | .vstr a, .vstr b =>
    if h : a = b then .isTrue (by rw [h])
    else .isFalse (by intro hh; cases hh; exact h rfl)
  | .vint a, .vint b =>
    if h : a = b then .isTrue (by rw [h])
    else .isFalse (by intro hh; cases hh; exact h rfl)
  | .vbool a, .vbool b =>
    if h : a = b then .isTrue (by rw [h])
    else .isFalse (by intro hh; cases hh; exact h rfl)
  | .vnull, .vnull => .isTrue rfl
  | .vlist a, .vlist b =>
    match Value.listDecEq a b with
    | .isTrue h => .isTrue (by rw [h])
    | .isFalse h => .isFalse (by intro hh; cases hh; exact h rfl)
  | .vmap a, .vmap b =>
    match Value.pairsDecEq a b with
    | .isTrue h => .isTrue (by rw [h])
    | .isFalse h => .isFalse (by intro hh; cases hh; exact h rfl)
  | .vstr _, .vint _ => .isFalse (by intro h; cases h)
  | .vstr _, .vbool _ => .isFalse (by intro h; cases h)
  | .vstr _, .vnull => .isFalse (by intro h; cases h)
  | .vstr _, .vlist _ => .isFalse (by intro h; cases h)
  | .vstr _, .vmap _ => .isFalse (by intro h; cases h)
  | .vint _, .vstr _ => .isFalse (by intro h; cases h)
  | .vint _, .vbool _ => .isFalse (by intro h; cases h)
  | .vint _, .vnull => .isFalse (by intro h; cases h)
  | .vint _, .vlist _ => .isFalse (by intro h; cases h)
  | .vint _, .vmap _ => .isFalse (by intro h; cases h)
  | .vbool _, .vstr _ => .isFalse (by intro h; cases h)
  | .vbool _, .vint _ => .isFalse (by intro h; cases h)
  | .vbool _, .vnull => .isFalse (by intro h; cases h)
  | .vbool _, .vlist _ => .isFalse (by intro h; cases h)
  | .vbool _, .vmap _ => .isFalse (by intro h; cases h)
  | .vnull, .vstr _ => .isFalse (by intro h; cases h)
  | .vnull, .vint _ => .isFalse (by intro h; cases h)
  | .vnull, .vbool _ => .isFalse (by intro h; cases h)
  | .vnull, .vlist _ => .isFalse (by intro h; cases h)
  | .vnull, .vmap _ => .isFalse (by intro h; cases h)
  | .vlist _, .vstr _ => .isFalse (by intro h; cases h)
  | .vlist _, .vint _ => .isFalse (by intro h; cases h)
  | .vlist _, .vbool _ => .isFalse (by intro h; cases h)
  | .vlist _, .vnull => .isFalse (by intro h; cases h)
  | .vlist _, .vmap _ => .isFalse (by intro h; cases h)
  | .vmap _, .vstr _ => .isFalse (by intro h; cases h)
  | .vmap _, .vint _ => .isFalse (by intro h; cases h)
  | .vmap _, .vbool _ => .isFalse (by intro h; cases h)
  | .vmap _, .vnull => .isFalse (by intro h; cases h)
  | .vmap _, .vlist _ => .isFalse (by intro h; cases h)

/-- Decidable equality of lists of `Value`. -/
def Value.listDecEq : (a b : List Value) → Decidable (a = b)
  | [], [] => .isTrue rfl
  | [], _ :: _ => .isFalse (by intro h; cases h)
  | _ :: _, [] => .isFalse (by intro h; cases h)
  | x :: xs, y :: ys =>
    match Value.decEq x y, Value.listDecEq xs ys with
    | .isTrue h1, .isTrue h2 => .isTrue (by rw [h1, h2])
    | .isFalse h1, _ => .isFalse (by intro hh; injection hh with e1 e2; exact h1 e1)
    | _, .isFalse h2 => .isFalse (by intro hh; injection hh with e1 e2; exact h2 e2)

/-- Decidable equality of lists of `Value` pairs. -/
def Value.pairsDecEq : (a b : List (Value × Value)) → Decidable (a = b)
  | [], [] => .isTrue rfl
  | [], _ :: _ => .isFalse (by intro h; cases h)
  | _ :: _, [] => .isFalse (by intro h; cases h)
  | (k1, v1) :: xs, (k2, v2) :: ys =>
    match Value.decEq k1 k2, Value.decEq v1 v2, Value.pairsDecEq xs ys with
    | .isTrue h1, .isTrue h2, .isTrue h3 => .isTrue (by rw [h1, h2, h3])
    | .isFalse h1, _, _ => .isFalse (by intro hh; injection hh with e1 e2; exact h1 (congrArg Prod.fst e1))
    | _, .isFalse h2, _ => .isFalse (by intro hh; injection hh with e1 e2; exact h2 (congrArg Prod.snd e1))
    | _, _, .isFalse h3 => .isFalse (by intro hh; injection hh with e1 e2; exact h3 e2)
end

instance : DecidableEq Value := Value.decEq

/-- The generic AST of `yaml_ast_parser.py`: `ScalarNode` (holding its typed
literal), `SequenceNode`, `MappingNode` (an ordered list of key/value node
pairs).  Anchor and alias nodes are not produced for the plain documents the
claims range over and are omitted. -/
inductive Node where
  | scalar : Value → Node
  | seq : List Node → Node
  | map : List (Node × Node) → Node

mutual
/-- Decidable equality of `Node` (hand-written, as for `Value`). -/
def Node.decEq : (a b : Node) → Decidable (a = b)
  | .scalar a, .scalar b =>
    match Value.decEq a b with
    | .isTrue h => .isTrue (by rw [h])
    | .isFalse h => .isFalse (by intro hh; cases hh; exact h rfl)
  | .seq a, .seq b =>
    match Node.listDecEq a b with
    | .isTrue h => .isTrue (by rw [h])
    | .isFalse h => .isFalse (by intro hh; cases hh; exact h rfl)
  | .map a, .map b =>
    match Node.pairsDecEq a b with
    | .isTrue h => .isTrue (by rw [h])
    | .isFalse h => .isFalse (by intro hh; cases hh; exact h rfl)
  | .scalar _, .seq _ => .isFalse (by intro h; cases h)
  | .scalar _, .map _ => .isFalse (by intro h; cases h)
  | .seq _, .scalar _ => .isFalse (by intro h; cases h)
  | .seq _, .map _ => .isFalse (by intro h; cases h)
  | .map _, .scalar _ => .isFalse (by intro h; cases h)
  | .map _, .seq _ => .isFalse (by intro h; cases h)

/-- Decidable equality of lists of `Node`. -/
def Node.listDecEq : (a b : List Node) → Decidable (a = b)
  | [], [] => .isTrue rfl
  | [], _ :: _ => .isFalse (by intro h; cases h)
  | _ :: _, [] => .isFalse (by intro h; cases h)
  | x :: xs, y :: ys =>
    match Node.decEq x y, Node.listDecEq xs ys with
    | .isTrue h1, .isTrue h2 => .isTrue (by rw [h1, h2])
    | .isFalse h1, _ => .isFalse (by intro hh; injection hh with e1 e2; exact h1 e1)
    | _, .isFalse h2 => .isFalse (by intro hh; injection hh with e1 e2; exact h2 e2)

/-- Decidable equality of lists of `Node` pairs. -/
def Node.pairsDecEq : (a b : List (Node × Node)) → Decidable (a = b)
  | [], [] => .isTrue rfl
  | [], _ :: _ => .isFalse (by intro h; cases h)
  | _ :: _, [] => .isFalse (by intro h; cases h)
  | (k1, v1) :: xs, (k2, v2) :: ys =>
    match Node.decEq k1 k2, Node.decEq v1 v2, Node.pairsDecEq xs ys with
    | .isTrue h1, .isTrue h2, .isTrue h3 => .isTrue (by rw [h1, h2, h3])
    | .isFalse h1, _, _ => .isFalse (by intro hh; injection hh with e1 e2; exact h1 (congrArg Prod.fst e1))
    | _, .isFalse h2, _ => .isFalse (by intro hh; injection hh with e1 e2; exact h2 (congrArg Prod.snd e1))
    | _, _, .isFalse h3 => .isFalse (by intro hh; injection hh with e1 e2; exact h3 e2)
end

instance : DecidableEq Node := Node.decEq

/-- `DocumentNode`: one YAML document with an optional root node. -/
structure DocumentNode where
  root : Option Node
deriving DecidableEq

/-- `StreamNode`: a YAML stream, a list of documents. -/
structure StreamNode where
  documents : List DocumentNode
deriving DecidableEq

mutual
/-- `FSMParser._node_to_python`: convert an AST node to Python values. -/
def nodeToPython : Node → Value
  | .scalar v => v
  | .seq es => .vlist (listToPython es)
  | .map ps => .vmap (pairsToDict ps)

/-- Elementwise `_node_to_python` over a sequence's elements. -/
def listToPython : List Node → List Value
  | [] => []
  | n :: ns => nodeToPython n :: listToPython ns

/-- `FSMParser._mapping_to_dict`: keep the pairs whose key is a scalar, key
by the scalar's value.  Duplicate keys follow Python dict semantics through
`dictHasKey` / `dictGetD` (membership is any occurrence, lookup is the last
occurrence). -/
def pairsToDict : List (Node × Node) → List (Value × Value)
  | [] => []
  | (k, v) :: ps =>
    match k with
    | .scalar kv => (kv, nodeToPython v) :: pairsToDict ps
    | _ => pairsToDict ps
end

/-- Python `key in data` on the dict built by `_mapping_to_dict`. -/
def dictHasKey (d : List (Value × Value)) (k : Value) : Bool :=
  d.any (fun p => decide (p.1 = k))

/-- Python `data.get(key, default)` (and `data[key]` where presence was
checked): the value of the last pair with the given key, else the default. -/
def dictGetD (d : List (Value × Value)) (k : Value) (v0 : Value) : Value :=
  (d.foldl (fun acc p => if p.1 = k then some p.2 else acc) none).getD v0

/-- `FSMParser._find_value_by_key`: the value node of the first pair whose
key is a scalar equal to the given string. -/
def findValueByKey : List (Node × Node) → String → Option Node
  | [], _ => none
  | (k, v) :: ps, s =>
    match k with
    | .scalar kv => if kv = .vstr s then some v else findValueByKey ps s
    | _ => findValueByKey ps s

/-- A single-quote character, used when emitting MATLAB / PlantUML text. -/
def sq : String := String.mk [Char.ofNat 39]

mutual
/-- Python `str()` on the values of the model (`str` is applied by the
Builder to the `version` field and by every f-string interpolation). -/
def pyStr : Value → String
  | .vstr s => s
  | .vint n => toString n
  | .vbool b => if b then "True" else "False"
  | .vnull => "None"
  | .vlist xs => "[" ++ pyReprList xs ++ "]"
  | .vmap ps => "\x7b" ++ pyReprPairs ps ++ "\x7d"

/-- Python `repr()` (as used by `str` on a list's or dict's elements);
string escaping inside `repr` of a string is not modelled. -/
def pyRepr : Value → String
  | .vstr s => sq ++ s ++ sq
  | v => pyStrAux v

/-- `pyStr` restricted to non-string values, to make the mutual recursion
structural. -/
def pyStrAux : Value → String
  | .vstr s => s
  | .vint n => toString n
  | .vbool b => if b then "True" else "False"
  | .vnull => "None"
  | .vlist xs => "[" ++ pyReprList xs ++ "]"
  | .vmap ps => "\x7b" ++ pyReprPairs ps ++ "\x7d"

/-- Comma-separated `repr` of a list's elements. -/
def pyReprList : List Value → String
  | [] => ""
  | [x] => pyRepr x
  | x :: xs => pyRepr x ++ ", " ++ pyReprList xs

/-- Comma-separated `repr` of a dict's pairs. -/
def pyReprPairs : List (Value × Value) → String
  | [] => ""
  | [(k, v)] => pyRepr k ++ ": " ++ pyRepr v
  | (k, v) :: ps => pyRepr k ++ ": " ++ pyRepr v ++ ", " ++ pyReprPairs ps
end

/-! ## The FSM domain model (`fsmdomainmodel.py`)

The dataclasses exactly as declared there: `Fsm`, `FsmState`,
`FsmTransition`.  None of the three carries a `description` field.  Field
values are `Value` because the parser stores whatever the input dict holds
(the dataclass type annotations are not enforced by Python); `version` is a
`String` because the Builder applies `str()` to it. -/

/-- `FsmTransition` of `fsmdomainmodel.py` (fields: `target_state`,
`condition`, `priority`, `on_transition_actions` — no `description`). -/
structure FsmTransition where
  target_state : Value := .vstr "No target state set"
  condition : Value := .vstr "No condition set"
  priority : Value := .vint 0
  on_transition_actions : Value := .vnull
deriving DecidableEq

/-- `FsmState` of `fsmdomainmodel.py` (fields: `name`, `is_initial`,
`is_final`, the three action lists, `transitions` — no `description`). -/
structure FsmState where
  name : Value := .vstr "UnnamedState"
  is_initial : Value := .vbool false
  is_final : Value := .vbool false
  on_entry_actions : Value := .vnull
  do_actions : Value := .vnull
  on_exit_actions : Value := .vnull
  transitions : List FsmTransition := []
deriving DecidableEq

/-- `Fsm` of `fsmdomainmodel.py` (fields: `name`, `version`,
`initial_state`, `states` — no `description`). -/
structure Fsm where
  name : Value := .vstr "UnnamedFSM"
  version : String := "Not set"
  initial_state : Value := .vstr "Not set"
  states : List FsmState := []
deriving DecidableEq

/-- The exception taxonomy seen by callers of the Builder and the driver:
`FSMParseError` (raised by the Builder's validation), and the underlying
exception kinds that the Builder does not catch — `yaml.YAMLError` from the
tree adapter, `OSError`/`FileNotFoundError` from reading the input file, and
Python `IndexError` from positional accesses. -/
inductive PyErr where
  | fsmParse : String → PyErr
  | yamlError : String → PyErr
  | osError : String → PyErr
  | indexError : PyErr
deriving DecidableEq

/-- Whether an error belongs to the `FSMParseError` family. -/
def PyErr.isFsmParse : PyErr → Bool
  | .fsmParse _ => true
  | _ => false

/-- Python `str(e)` for the modelled exceptions. -/
def PyErr.message : PyErr → String
  | .fsmParse m => m
  | .yamlError m => m
  | .osError m => m
  | .indexError => "list index out of range"

/-- Decidable equality for `Except` results. -/
instance {ε α : Type} [DecidableEq ε] [DecidableEq α] : DecidableEq (Except ε α)
  | .ok a, .ok b =>
    if h : a = b then .isTrue (by rw [h])
    else .isFalse (by intro hh; injection hh; contradiction)
  | .error a, .error b =>
    if h : a = b then .isTrue (by rw [h])
    else .isFalse (by intro hh; injection hh; contradiction)
  | .ok _, .error _ => .isFalse (by intro h; cases h)
  | .error _, .ok _ => .isFalse (by intro h; cases h)

/-! ## The FSM Builder: class `FSMParser` of `fsmtool.py`

This is the parser the command-line driver instantiates.  A sibling copy in
`fsmparser.py` additionally passes a `description` keyword to each
constructor; since the `fsmdomainmodel.py` dataclasses accept no such
keyword, that copy raises `TypeError` on every input and cannot produce an
IR — see the C2 theorems. -/

/-- `FSMParser._parse_transition` of `fsmtool.py` (lines 173-192). -/
def parse_transition (ps : List (Node × Node)) : Except PyErr FsmTransition :=
  let data := pairsToDict ps
  if ¬ dictHasKey data (.vstr "target_state") then
    .error (.fsmParse "Transition must have a 'target_state' field")
  else if ¬ dictHasKey data (.vstr "condition") then
    .error (.fsmParse "Transition must have a 'condition' field")
  else if ¬ dictHasKey data (.vstr "priority") then
    .error (.fsmParse "Transition must have a 'priority' field")
  else
    .ok { target_state := dictGetD data (.vstr "target_state") (.vstr "No target state set"),
          condition := dictGetD data (.vstr "condition") (.vstr "No condition set"),
          priority := dictGetD data (.vstr "priority") (.vint 0),
          on_transition_actions := dictGetD data (.vstr "on_transition") (.vlist []) }

/-- The loop of `FSMParser._parse_state` over a `transitions` sequence:
mapping elements are parsed, non-mapping elements silently skipped, and the
first error aborts. -/
def parse_transition_list : List Node → Except PyErr (List FsmTransition)
  | [] => .ok []
  | .map ps :: rest =>
    match parse_transition ps with
    | .error e => .error e
    | .ok t =>
      match parse_transition_list rest with
      | .error e => .error e
      | .ok ts => .ok (t :: ts)
  | _ :: rest => parse_transition_list rest

/-- `FSMParser._parse_state` of `fsmtool.py` (lines 145-170). -/
def parse_state (ps : List (Node × Node)) : Except PyErr FsmState :=
  let data := pairsToDict ps
  if ¬ dictHasKey data (.vstr "name") then
    .error (.fsmParse "A state must have a 'name' field")
  else
    let st : FsmState :=
      { name := dictGetD data (.vstr "name") (.vstr "UnnamedState"),
        is_initial := dictGetD data (.vstr "is_initial") (.vbool false),
        is_final := dictGetD data (.vstr "is_final") (.vbool false),
        on_entry_actions := dictGetD data (.vstr "on_entry") (.vlist []),
        do_actions := dictGetD data (.vstr "do") (.vlist []),
        on_exit_actions := dictGetD data (.vstr "on_exit") (.vlist []),
        transitions := [] }
    match findValueByKey ps "transitions" with
    | some (.seq elems) =>
      match parse_transition_list elems with
      | .error e => .error e
      | .ok ts => .ok { st with transitions := ts }
    | _ => .ok st

/-- The body of the `states` loop in `FSMParser._parse_fsm` (lines 136-141):
after a state parses, its `is_initial` flag is set to `True` when its name
equals the FSM's `initial_state` (and left untouched otherwise). -/
def apply_initial_override (init : Value) (st : FsmState) : FsmState :=
  if st.name = init then { st with is_initial := .vbool true } else st

/-- The loop of `FSMParser._parse_fsm` over the `states` sequence: mapping
elements are parsed and get the `is_initial` override; non-mapping elements
are silently skipped; the first error aborts. -/
def parse_state_list (init : Value) : List Node → Except PyErr (List FsmState)
  | [] => .ok []
  | .map ps :: rest =>
    match parse_state ps with
    | .error e => .error e
    | .ok st =>
      match parse_state_list init rest with
      | .error e => .error e
      | .ok sts => .ok (apply_initial_override init st :: sts)
  | _ :: rest => parse_state_list init rest

/-- `FSMParser._parse_fsm` of `fsmtool.py` (lines 111-143): required-field
checks for `name`, `version`, `initial_state`, `states`; the `Fsm` is built
with `version` passed through `str()`; the `states` value node is then
fetched with `_find_value_by_key` and iterated only when it is a
`SequenceNode`. -/
def parse_fsm (ps : List (Node × Node)) : Except PyErr Fsm :=
  let data := pairsToDict ps
  if ¬ dictHasKey data (.vstr "name") then
    .error (.fsmParse "FSM must have a 'name' field")
  else if ¬ dictHasKey data (.vstr "version") then
    .error (.fsmParse "FSM must have a 'version' field")
  else if ¬ dictHasKey data (.vstr "initial_state") then
    .error (.fsmParse "FSM must have an 'initial_state' field")
  else if ¬ dictHasKey data (.vstr "states") then
    .error (.fsmParse "FSM must have a 'states' field")
  else
    let fsm : Fsm :=
      { name := dictGetD data (.vstr "name") .vnull,
        version := pyStr (dictGetD data (.vstr "version") .vnull),
        initial_state := dictGetD data (.vstr "initial_state") .vnull,
        states := [] }
    match findValueByKey ps "states" with
    | some (.seq elems) =>
      match parse_state_list fsm.initial_state elems with
      | .error e => .error e
      | .ok sts => .ok { fsm with states := sts }
    | _ => .ok fsm

/-- `FSMParser._parse_fsm_beginning` of `fsmtool.py` (lines 86-109): after
checking that the `statemachine` key exists, the FSM body is taken
positionally — `mapping.pairs[1].value` when a `fsmformat` key exists,
`mapping.pairs[0].value` otherwise (the `formatversion` attribute it also
records is diagnostic state, unused by the result).  A positional access
past the end of `pairs` would raise Python `IndexError`. -/
def parse_fsm_beginning (ps : List (Node × Node)) : Except PyErr Fsm :=
  let data := pairsToDict ps
  if ¬ dictHasKey data (.vstr "statemachine") then
    .error (.fsmParse "FSM definition must start with the 'statemachine' key")
  else
    match ps[(if dictHasKey data (.vstr "fsmformat") then 1 else 0)]? with
    | none => .error .indexError
    | some p =>
      match p.2 with
      | .map fsmPairs => parse_fsm fsmPairs
      | _ => .error (.fsmParse "FSM definition must be a mapping")

/-- `FSMParser._convert_ast_to_fsm` of `fsmtool.py` (lines 75-84): the first
document's root must exist and be a `MappingNode`. -/
def convert_ast_to_fsm (ast : StreamNode) : Except PyErr Fsm :=
  match ast.documents with
  | [] => .error (.fsmParse "Empty FSM file")
  | doc :: _ =>
    match doc.root with
    | some (.map ps) => parse_fsm_beginning ps
    | _ => .error (.fsmParse "FSM file must contain a mapping at root")

/-- The outcome of the tree adapter reading the input: the file could not be
read (`OSError` / `FileNotFoundError`), the YAML library failed on the text
(`yaml.YAMLError`), or a stream of documents was produced. -/
inductive TreeReadOutcome where
  | fileError : String → TreeReadOutcome
  | yamlFailure : String → TreeReadOutcome
  | tree : StreamNode → TreeReadOutcome
deriving DecidableEq

/-- `FSMParser.parse_string` of `fsmtool.py` (lines 69-73): the adapter's
call is not wrapped in any `try`, so an adapter failure propagates to the
caller as the underlying exception; on success the AST is converted. -/
def parse_string (adapter : Except String StreamNode) : Except PyErr Fsm :=
  match adapter with
  | .error e => .error (.yamlError e)
  | .ok ast => convert_ast_to_fsm ast

/-- `FSMParser.parse_file` of `fsmtool.py` (lines 63-67): likewise
unwrapped; a file-read failure or a YAML failure propagates unchanged. -/
def parse_file (outcome : TreeReadOutcome) : Except PyErr Fsm :=
  match outcome with
  | .fileError m => .error (.osError m)
  | .yamlFailure m => .error (.yamlError m)
  | .tree ast => convert_ast_to_fsm ast

/-! ## The IR as the generators and `fsmparser.py` expect it

`fsm2plantuml.py` and `fsm2yaml.py` read `fsm.description`,
`state.description` and `transition.description`, and `fsmparser.py` passes
`description=` to all three constructors, but the `fsmdomainmodel.py`
dataclasses carry no such field (see the C2 record).  The structures below
are that intended IR, with each field at the type the dataclass annotations
declare (`str`, `bool`, `int`, `List[str]`); the renderers are defined over
them. -/

/-- A transition as the generators consume it (the `fsmparser.py` /
generator view: `fsmdomainmodel.FsmTransition` plus `description`). -/
structure FsmTransitionD where
  target_state : String := "No target state set"
  condition : String := "No condition set"
  description : String := "No description"
  priority : Int := 0
  on_transition_actions : List String := []
deriving DecidableEq

/-- A state as the generators consume it (plus `description`). -/
structure FsmStateD where
  name : String := "UnnamedState"
  description : String := "No description"
  is_initial : Bool := false
  is_final : Bool := false
  on_entry_actions : List String := []
  do_actions : List String := []
  on_exit_actions : List String := []
  transitions : List FsmTransitionD := []
deriving DecidableEq

/-- An FSM as the generators consume it (plus `description`). -/
structure FsmD where
  name : String := "UnnamedFSM"
  version : String := "Not set"
  description : String := "No description"
  initial_state : String := "Not set"
  states : List FsmStateD := []
deriving DecidableEq

/-- Python `str()` of a bool, as interpolated by the renderers. -/
def pyBool (b : Bool) : String := if b then "True" else "False"

/-- 81 single quotes: `"/'" + "'" * 80` and `"'" * 80 + "'/"` of
`fsm2plantuml.py` each contain this run. -/
def quotes81 : String := String.mk (List.replicate 81 (Char.ofNat 39))

/-! ### `fsm2plantuml.py`: class `FSM2PlantUMLGenerator`

Its `indent_level` never changes, so every line is written as-is.  The
output is modelled as the list of lines written to the stream; the
generation timestamp is the explicit parameter `t`. -/

/-- `FSM2PlantUMLGenerator._generate_header` (lines 36-50). -/
def plantuml_header (fsm : FsmD) (t : String) : List String :=
  ["/" ++ quotes81,
   "PlantUML description of FSM.",
   "State machine: " ++ fsm.name,
   "Version: " ++ fsm.version,
   "Description: " ++ fsm.description,
   "Generated on: " ++ t,
   quotes81 ++ "/",
   "",
   "@startuml",
   "hide empty description",
   ""]

/-- `FSM2PlantUMLGenerator._generate_footer` (lines 52-58). -/
def plantuml_footer (fsm : FsmD) : List String :=
  ["/" ++ quotes81,
   " End of Finite State Machine: " ++ fsm.name,
   quotes81 ++ "/",
   "",
   "@enduml"]

/-- `FSM2PlantUMLGenerator._generate_transition` (lines 114-121). -/
def plantuml_transition (src : String) (tr : FsmTransitionD) : List String :=
  [src ++ " --> " ++ tr.target_state ++ " : Condition: " ++ tr.condition
     ++ (if tr.description ≠ "" ∧ tr.description ≠ "No description"
         then "\\n Description: " ++ tr.description else "")
     -- `if transition.priority is not None` is always true at the declared
     -- type `int`.
     ++ "\\n Priority: " ++ toString tr.priority
     ++ (if tr.on_transition_actions ≠ []
         then "\\n Actions: " ++ String.intercalate ", " tr.on_transition_actions
         else ""),
   ""]

/-- `FSM2PlantUMLGenerator._generate_state` (lines 70-112). -/
def plantuml_state (st : FsmStateD) : List String :=
  ["/" ++ quotes81,
   " State: " ++ st.name,
   quotes81 ++ "/"]
  ++ (if st.is_initial then ["[*] --> " ++ st.name] else [])
  ++ (st.transitions.map (plantuml_transition st.name)).flatten
  ++ (if st.is_final then [st.name ++ " --> [*]"] else [])
  ++ (if st.description ≠ "" ∧ st.description ≠ "No description"
      then [st.name ++ " : " ++ st.description, ""] else [])
  ++ (if st.on_entry_actions ≠ []
      then [st.name ++ " : \\nOn entry actions:"]
        ++ st.on_entry_actions.map (fun a => st.name ++ " : " ++ a) ++ [""]
      else [])
  ++ (if st.do_actions ≠ []
      then [st.name ++ " : \\nDo actions:"]
        ++ st.do_actions.map (fun a => st.name ++ " : " ++ a) ++ [""]
      else [])
  ++ (if st.on_exit_actions ≠ []
      then [st.name ++ " : \\nOn exit actions:"]
        ++ st.on_exit_actions.map (fun a => st.name ++ " : " ++ a) ++ [""]
      else [])
  ++ [""]

/-- `FSM2PlantUMLGenerator._generate_fsm` (lines 60-67). -/
def plantuml_fsm (fsm : FsmD) : List String :=
  ["title State diagram for " ++ fsm.name ++ ", version " ++ fsm.version, ""]
  ++ (fsm.states.map plantuml_state).flatten

/-- `FSM2PlantUMLGenerator._generate_to_stream` (lines 29-34): the full
PlantUML output, one entry per written line. -/
def plantuml_lines (fsm : FsmD) (t : String) : List String :=
  plantuml_header fsm t ++ plantuml_fsm fsm ++ plantuml_footer fsm

/-! ### `fsm2stateflow.py`: class `FSM2StateflowGenerator`

The only indentation change is around `close_system` in the model-creation
block; everything else is written at level 0. -/

/-- A run of 80 percent signs (`"%" * 80`). -/
def pct80 : String := String.mk (List.replicate 80 '%')

/-- `FSM2StateflowGenerator._format_actions` (lines 223-236): join actions
with semicolons after stripping whitespace and one trailing semicolon. -/
def format_actions (actions : List String) : String :=
  String.intercalate "; " (actions.map (fun a =>
    let a := a.trim
    if a.endsWith ";" then a.dropRight 1 else a))

/-- `FSM2StateflowGenerator._convert_condition` (lines 238-246): textual
substitution of C-style operators and boolean literals by their MATLAB
equivalents (the `==` replacement in the source is an identity). -/
def convert_condition (condition : String) : String :=
  ((((condition.replace "==" "==").replace "&&" "&").replace "||" "|").replace
    "True" "true").replace "False" "false"

/-- `FSM2StateflowGenerator._generate_header` (lines 53-66). -/
def stateflow_header (fsm : FsmD) (t : String) : List String :=
  [pct80,
   "%% Stateflow Chart Generation Script",
   "%% State Machine: " ++ fsm.name,
   "%% Version: " ++ fsm.version,
   "%% Generated on: " ++ t,
   pct80,
   "",
   "% Clean up workspace",
   "close all;",
   "bdclose all;",
   ""]

/-- `FSM2StateflowGenerator._generate_model_creation` (lines 68-91). -/
def stateflow_model_creation (fsm : FsmD) : List String :=
  ["%% Create new Simulink model",
   "modelName = " ++ sq ++ fsm.name ++ sq ++ ";",
   "if bdIsLoaded(modelName)",
   "    close_system(modelName, 0);",
   "end",
   "new_system(modelName);",
   "open_system(modelName);",
   "",
   "%% Add Stateflow chart",
   "chart = add_block(" ++ sq ++ "sflib/Chart" ++ sq ++ ", [modelName " ++ sq
     ++ "/StateChart" ++ sq ++ "]);",
   "set_param(chart, " ++ sq ++ "Position" ++ sq ++ ", [100 100 600 500]);",
   "",
   "%% Get chart object",
   "rt = sfroot;",
   "model = rt.find(" ++ sq ++ "-isa" ++ sq ++ ", " ++ sq ++ "Simulink.BlockDiagram"
     ++ sq ++ ", " ++ sq ++ "Name" ++ sq ++ ", modelName);",
   "chartObj = model.find(" ++ sq ++ "-isa" ++ sq ++ ", " ++ sq ++ "Stateflow.Chart"
     ++ sq ++ ");",
   ""]

/-- One state block of `FSM2StateflowGenerator._generate_states`
(lines 106-145): grid position from the enumeration index `i`
(3 columns, 200 x 180 spacing from origin 50, 50), then the optional
entry/during/exit label. -/
def stateflow_state_block (i : Nat) (st : FsmStateD) : List String :=
  let x := 50 + (i % 3) * 200
  let y := 50 + (i / 3) * 180
  let label_parts :=
    (if st.on_entry_actions ≠ [] then ["entry: " ++ format_actions st.on_entry_actions] else [])
    ++ (if st.do_actions ≠ [] then ["during: " ++ format_actions st.do_actions] else [])
    ++ (if st.on_exit_actions ≠ [] then ["exit: " ++ format_actions st.on_exit_actions] else [])
  ["%% State: " ++ st.name,
   "state_" ++ st.name ++ " = Stateflow.State(chartObj);",
   "state_" ++ st.name ++ ".Name = " ++ sq ++ st.name ++ sq ++ ";",
   "state_" ++ st.name ++ ".Position = [" ++ toString x ++ " " ++ toString y ++ " 150 120];"]
  ++ (if label_parts ≠ []
      then ["state_" ++ st.name ++ ".LabelString = " ++ sq
              ++ (String.intercalate "\\n" label_parts).replace sq (sq ++ sq) ++ sq ++ ";"]
      else [])
  ++ [""]

/-- `FSM2StateflowGenerator._generate_states` (lines 93-147). -/
def stateflow_states (fsm : FsmD) : List String :=
  ["%% Create states"]
  ++ (fsm.states.enum.map (fun p => stateflow_state_block p.1 p.2)).flatten
  ++ [""]

/-- One transition block of `FSM2StateflowGenerator._generate_transitions`
(lines 157-188), with the running transition ordinal `trans_id`. -/
def stateflow_transition_block (src : String) (trans_id : Nat) (tr : FsmTransitionD) :
    List String :=
  let label_parts :=
    (if tr.condition ≠ "" ∧ tr.condition ≠ "true"
     then ["[" ++ convert_condition tr.condition ++ "]"] else [])
  let label_parts :=
    if tr.on_transition_actions ≠ [] then
      if label_parts ≠ [] then label_parts ++ ["/" ++ format_actions tr.on_transition_actions]
      else [format_actions tr.on_transition_actions]
    else label_parts
  ["%% Transition: " ++ src ++ " -> " ++ tr.target_state,
   "trans_" ++ toString trans_id ++ " = Stateflow.Transition(chartObj);",
   "trans_" ++ toString trans_id ++ ".Source = state_" ++ src ++ ";",
   "trans_" ++ toString trans_id ++ ".Destination = state_" ++ tr.target_state ++ ";"]
  ++ (if label_parts ≠ []
      then ["trans_" ++ toString trans_id ++ ".LabelString = " ++ sq
              ++ (String.join label_parts).replace sq (sq ++ sq) ++ sq ++ ";"]
      else [])
  ++ [""]

/-- `FSM2StateflowGenerator._generate_transitions` (lines 149-190): the
ordinal `trans_id` counts transitions across all states. -/
def stateflow_transitions (fsm : FsmD) : List String :=
  ["%% Create transitions"]
  ++ (fsm.states.foldl
        (fun (acc : Nat × List String) st =>
          st.transitions.foldl
            (fun acc2 tr =>
              (acc2.1 + 1, acc2.2 ++ stateflow_transition_block st.name (acc2.1 + 1) tr))
            acc)
        (0, [])).2
  ++ [""]

/-- `FSM2StateflowGenerator._generate_initial_state` (lines 192-200). -/
def stateflow_initial_state (fsm : FsmD) : List String :=
  ["%% Set initial state",
   "defaultTrans = Stateflow.Transition(chartObj);",
   "defaultTrans.Destination = state_" ++ fsm.initial_state ++ ";",
   "defaultTrans.DestinationOClock = 9;",
   "defaultTrans.SourceEndpoint = [state_" ++ fsm.initial_state
     ++ ".Position(1)-50, state_" ++ fsm.initial_state ++ ".Position(2)+60];",
   "defaultTrans.MidPoint = [state_" ++ fsm.initial_state
     ++ ".Position(1)-25, state_" ++ fsm.initial_state ++ ".Position(2)+60];",
   ""]

/-- `FSM2StateflowGenerator._generate_footer` (lines 202-215). -/
def stateflow_footer (fsm : FsmD) : List String :=
  ["%% Arrange chart layout",
   "Stateflow.Root;",
   "",
   "%% Save model",
   "save_system(" ++ sq ++ fsm.name ++ sq ++ ");",
   "",
   "disp(" ++ sq ++ "Stateflow model created: " ++ fsm.name ++ ".slx" ++ sq ++ ");",
   "disp(" ++ sq ++ "Open the model and double-click the Chart block to view." ++ sq ++ ");",
   "",
   pct80,
   "% End of Finite State Machine: " ++ fsm.name,
   pct80]

/-- `FSM2StateflowGenerator._generate_to_stream` (lines 30-50): the full
MATLAB script, one entry per written line. -/
def stateflow_lines (fsm : FsmD) (t : String) : List String :=
  stateflow_header fsm t ++ stateflow_model_creation fsm ++ stateflow_states fsm
  ++ stateflow_transitions fsm ++ stateflow_initial_state fsm ++ stateflow_footer fsm

/-! ### `fsm2yaml.py`: class `FSM2YAMLGenerator`

`_write` prefixes every line (empty ones included) with
`indent_str * indent_level`; the level at each write is statically
determined, so it appears below as the argument of `yw`. -/

/-- `FSM2YAMLGenerator._write` at indentation level `lvl`
(`indent_str = "    "`). -/
def yw (lvl : Nat) (s : String) : String :=
  String.join (List.replicate lvl "    ") ++ s

/-- A run of 80 number signs (`"#" * 80`). -/
def hash80 : String := String.mk (List.replicate 80 '#')

/-- `FSM2YAMLGenerator._generate_header` (lines 36-48), written at level 0. -/
def yaml_header (fsm : FsmD) (t : String) : List String :=
  [hash80,
   "# Generated on " ++ t,
   hash80,
   "",
   "%YAML 1.2",
   "---",
   "",
   hash80,
   "# Start of Finite State Machine: " ++ fsm.name,
   hash80]

/-- `FSM2YAMLGenerator._generate_footer` (lines 50-53). -/
def yaml_footer (fsm : FsmD) : List String :=
  [hash80,
   "# End of Finite State Machine: " ++ fsm.name,
   hash80]

/-- `FSM2YAMLGenerator._generate_transition` (lines 102-120), entered at
level 2; the banner width is `80 - len(indent_str * level) - 1`.  The
"Transtition" spelling is the source's. -/
def yaml_transition (src : String) (tr : FsmTransitionD) : List String :=
  [yw 2 ("#" ++ String.mk (List.replicate 71 '-')),
   yw 2 ("# Transtition " ++ src ++ " --> " ++ tr.target_state),
   yw 2 ("#" ++ String.mk (List.replicate 71 '-')),
   yw 2 ("-   target_state: " ++ tr.target_state),
   yw 3 ("condition: " ++ tr.condition),
   yw 3 ("description: " ++ tr.description),
   yw 3 ("priority: " ++ toString tr.priority)]
  ++ (if tr.on_transition_actions ≠ []
      then [yw 3 "on_transition:"]
        ++ tr.on_transition_actions.map (fun a => yw 3 ("-   " ++ a))
      else [])
  ++ [yw 3 ""]

/-- `FSM2YAMLGenerator._generate_state` (lines 72-100), entered at level 1. -/
def yaml_state (st : FsmStateD) : List String :=
  [yw 1 ("#" ++ String.mk (List.replicate 75 '#')),
   yw 1 ("# State " ++ st.name),
   yw 1 ("#" ++ String.mk (List.replicate 75 '#')),
   yw 1 ("-   name: " ++ st.name),
   yw 2 ("description: " ++ st.description),
   yw 2 ("is_initial: " ++ pyBool st.is_initial),
   yw 2 ("is_final: " ++ pyBool st.is_final)]
  ++ (if st.on_entry_actions ≠ []
      then [yw 2 "on_entry:"] ++ st.on_entry_actions.map (fun a => yw 2 ("- " ++ a))
      else [])
  ++ (if st.do_actions ≠ []
      then [yw 2 "do:"] ++ st.do_actions.map (fun a => yw 2 ("- " ++ a))
      else [])
  ++ (if st.on_exit_actions ≠ []
      then [yw 2 "on_exit:"] ++ st.on_exit_actions.map (fun a => yw 2 ("- " ++ a))
      else [])
  ++ (if st.transitions ≠ []
      then [yw 2 "transitions:"]
        ++ (st.transitions.map (fun tr => yw 2 "" :: yaml_transition st.name tr)).flatten
      else [])
  ++ [yw 2 ""]

/-- `FSM2YAMLGenerator._generate_fsm` (lines 55-70): the `statemachine:`
block; the `states:` key is written only when the state list is non-empty. -/
def yaml_fsm (fsm : FsmD) : List String :=
  ["statemachine:",
   yw 1 ("name: " ++ fsm.name),
   yw 1 ("version: " ++ fsm.version),
   yw 1 ("description: " ++ fsm.description),
   yw 1 ("initial_state: " ++ fsm.initial_state)]
  ++ (if fsm.states ≠ []
      then [yw 1 "states:"] ++ (fsm.states.map (fun st => yw 1 "" :: yaml_state st)).flatten
      else [])

/-- `FSM2YAMLGenerator._generate_to_stream` (lines 29-34): the full YAML
output, one entry per written line. -/
def yaml_lines (fsm : FsmD) (t : String) : List String :=
  yaml_header fsm t ++ yaml_fsm fsm ++ yaml_footer fsm

/-! ### Re-reading the YAML renderer's output (round trip) -/

/-- Modelled from the spec: the external tree adapter (§4.1, the PyYAML
implicit resolver together with the tag dispatch in
`yaml_ast_parser._build_ast_node`, lines 196-220) applied to one emitted
plain scalar.  Empty and `~`/`null` forms become `None`, the YAML 1.1
boolean words become bools (via `value.lower() in ('true', 'yes', 'on')`),
decimal integer literals become ints; float and other exotic scalar forms
are outside the model. -/
def yamlResolve (s : String) : Value :=
  if s = "" ∨ s = "~" ∨ s = "null" ∨ s = "Null" ∨ s = "NULL" then .vnull
  else if s = "true" ∨ s = "True" ∨ s = "TRUE" ∨ s = "yes" ∨ s = "Yes" ∨ s = "YES"
          ∨ s = "on" ∨ s = "On" ∨ s = "ON" then .vbool true
  else if s = "false" ∨ s = "False" ∨ s = "FALSE" ∨ s = "no" ∨ s = "No" ∨ s = "NO"
          ∨ s = "off" ∨ s = "Off" ∨ s = "OFF" then .vbool false
  else
    match s.toInt? with
    | some n => .vint n
    | none => .vstr s

/-- A scalar key node for an emitted mapping key. -/
def ks (s : String) : Node := Node.scalar (.vstr s)

/-- The mapping node denoted by one transition block of
`FSM2YAMLGenerator._generate_transition`: keys in emission order
`target_state`, `condition`, `description`, `priority`, then
`on_transition` only when the action list is non-empty, each scalar being
the resolution of the interpolated text. -/
def yaml_transition_ast (tr : FsmTransitionD) : Node :=
  Node.map
    ([(ks "target_state", .scalar (yamlResolve tr.target_state)),
      (ks "condition", .scalar (yamlResolve tr.condition)),
      (ks "description", .scalar (yamlResolve tr.description)),
      (ks "priority", .scalar (yamlResolve (toString tr.priority)))]
     ++ (if tr.on_transition_actions ≠ []
         then [(ks "on_transition",
                .seq (tr.on_transition_actions.map (fun a => .scalar (yamlResolve a))))]
         else []))

/-- The mapping node denoted by one state block of
`FSM2YAMLGenerator._generate_state`: keys in emission order `name`,
`description`, `is_initial`, `is_final`, then each action list and
`transitions` only when non-empty. -/
def yaml_state_ast (st : FsmStateD) : Node :=
  Node.map
    ([(ks "name", .scalar (yamlResolve st.name)),
      (ks "description", .scalar (yamlResolve st.description)),
      (ks "is_initial", .scalar (yamlResolve (pyBool st.is_initial))),
      (ks "is_final", .scalar (yamlResolve (pyBool st.is_final)))]
     ++ (if st.on_entry_actions ≠ []
         then [(ks "on_entry", .seq (st.on_entry_actions.map (fun a => .scalar (yamlResolve a))))]
         else [])
     ++ (if st.do_actions ≠ []
         then [(ks "do", .seq (st.do_actions.map (fun a => .scalar (yamlResolve a))))]
         else [])
     ++ (if st.on_exit_actions ≠ []
         then [(ks "on_exit", .seq (st.on_exit_actions.map (fun a => .scalar (yamlResolve a))))]
         else [])
     ++ (if st.transitions ≠ []
         then [(ks "transitions", .seq (st.transitions.map yaml_transition_ast))]
         else []))

/-- The root mapping denoted by the document `FSM2YAMLGenerator` emits (the
banner comments and blank lines of `yaml_lines` carry no content): one
`statemachine` key whose body lists `name`, `version`, `description`,
`initial_state` and — only when the state list is non-empty — `states`,
exactly as `_generate_fsm` writes them. -/
def fsm2yaml_root_ast (fsm : FsmD) : List (Node × Node) :=
  [(ks "statemachine",
    Node.map
      ([(ks "name", .scalar (yamlResolve fsm.name)),
        (ks "version", .scalar (yamlResolve fsm.version)),
        (ks "description", .scalar (yamlResolve fsm.description)),
        (ks "initial_state", .scalar (yamlResolve fsm.initial_state))]
       ++ (if fsm.states ≠ []
           then [(ks "states", .seq (fsm.states.map yaml_state_ast))]
           else [])))]

/-! ## The command-line driver: `main` of `fsmtool.py` -/

/-- `main` of `fsmtool.py` (lines 345-399): the one `try` block parses and
then runs the selected generators; any exception is caught, `Error: {e}` is
printed to stderr, and `main` returns 1; otherwise it returns 0.  The
result models (return value of `main`, lines printed to stderr); the
generation outcome (which in the current code can itself raise, e.g.
`AttributeError` from a renderer) is the explicit second argument. -/
def mainFn (parse_outcome : Except PyErr Fsm) (generation : Except String Unit) :
    Int × List String :=
  match parse_outcome with
  | .error e => (1, ["Error: " ++ e.message])
  | .ok _ =>
    match generation with
    | .error m => (1, ["Error: " ++ m])
    | .ok _ => (0, [])

/-- The entry point of `fsmtool.py` (lines 409-410):
`if __name__ == "__main__": main()`.  The value `main` returns is
discarded — there is no `sys.exit(...)` around the call — so the
interpreter falls off the end of the script and the process exit status is
0 regardless of `main`'s return value.  (Contrast `yaml_ast_parser.py`
line 414, which does `sys.exit(main())`.) -/
def script_exit_code (parse_outcome : Except PyErr Fsm)
    (generation : Except String Unit) : Int :=
  let _discarded := mainFn parse_outcome generation
  0

/-! ## Concrete documents used by the claim theorems -/

/-- A minimal valid FSM body with an empty `states` sequence
(`statemachine: {name: M, version: 1, initial_state: A, states: []}`). -/
def c1OrigBody : List (Node × Node) :=
  [(ks "name", .scalar (.vstr "M")),
   (ks "version", .scalar (.vstr "1")),
   (ks "initial_state", .scalar (.vstr "A")),
   (ks "states", .seq [])]

/-- The intended-model image of parsing `c1OrigBody`: the same fields plus
the defaulted description sentinel, with no states. -/
def c1Fsm : FsmD :=
  { name := "M", version := "1", description := "No description",
    initial_state := "A", states := [] }

/-- An FSM body carrying a `description` at every level: on the FSM, on its
single state, and on that state's single transition. -/
def c2BodyWithDesc : List (Node × Node) :=
  [(ks "name", .scalar (.vstr "M")),
   (ks "version", .scalar (.vstr "1")),
   (ks "description", .scalar (.vstr "machine blurb")),
   (ks "initial_state", .scalar (.vstr "A")),
   (ks "states", .seq [
     .map [(ks "name", .scalar (.vstr "A")),
           (ks "description", .scalar (.vstr "state blurb")),
           (ks "transitions", .seq [
             .map [(ks "target_state", .scalar (.vstr "A")),
                   (ks "condition", .scalar (.vstr "go")),
                   (ks "description", .scalar (.vstr "edge blurb")),
                   (ks "priority", .scalar (.vint 1))]])]])]

/-- `c2BodyWithDesc` with every `description` entry removed. -/
def c2BodyNoDesc : List (Node × Node) :=
  [(ks "name", .scalar (.vstr "M")),
   (ks "version", .scalar (.vstr "1")),
   (ks "initial_state", .scalar (.vstr "A")),
   (ks "states", .seq [
     .map [(ks "name", .scalar (.vstr "A")),
           (ks "transitions", .seq [
             .map [(ks "target_state", .scalar (.vstr "A")),
                   (ks "condition", .scalar (.vstr "go")),
                   (ks "priority", .scalar (.vint 1))]])]])]

/-- The IR both C2 documents parse to. -/
def c2Fsm : Fsm :=
  { name := .vstr "M", version := "1", initial_state := .vstr "A",
    states := [
      { name := .vstr "A", is_initial := .vbool true, is_final := .vbool false,
        on_entry_actions := .vlist [], do_actions := .vlist [],
        on_exit_actions := .vlist [],
        transitions := [
          { target_state := .vstr "A", condition := .vstr "go",
            priority := .vint 1, on_transition_actions := .vlist [] }] }] }

/-- The elements of the `states` sequence of the C3 document: one state
named `B` whose input sets `is_initial: true`, although the FSM's
`initial_state` is `A`. -/
def c3Elems : List Node :=
  [.map [(ks "name", .scalar (.vstr "B")),
         (ks "is_initial", .scalar (.vbool true))]]

/-- The C3 FSM body: `initial_state: A`, one state `B` with an explicit
`is_initial: true`. -/
def c3Body : List (Node × Node) :=
  [(ks "name", .scalar (.vstr "M")),
   (ks "version", .scalar (.vstr "1")),
   (ks "initial_state", .scalar (.vstr "A")),
   (ks "states", .seq c3Elems)]

/-- The state `B` as the Builder returns it: `is_initial` kept `True`. -/
def c3StateB : FsmState :=
  { name := .vstr "B", is_initial := .vbool true, is_final := .vbool false,
    on_entry_actions := .vlist [], do_actions := .vlist [],
    on_exit_actions := .vlist [], transitions := [] }

/-- The IR the C3 document parses to. -/
def c3Fsm : Fsm :=
  { name := .vstr "M", version := "1", initial_state := .vstr "A",
    states := [c3StateB] }

/-- The C5 root mapping with the two top-level keys in the reverse of the
documented order: `statemachine` (a valid mapping body) first, `fsmformat`
second. -/
def c5Root : List (Node × Node) :=
  [(ks "statemachine", .map c1OrigBody),
   (ks "fsmformat", .scalar (.vstr "0.1"))]

/-- A state mapping supplying the `on_entry` action field as a bare scalar
(`on_entry: x`). -/
def c6StatePairs : List (Node × Node) :=
  [(ks "name", .scalar (.vstr "A")),
   (ks "on_entry", .scalar (.vstr "x"))]

/-- A YAML-library failure message, as `yaml.compose_all` raises it for
malformed text. -/
def c9YamlMsg : String := "while parsing a block mapping: did not find expected key"

/-- The state the C6 input parses to: the bare scalar supplied for
`on_entry` is stored as the scalar itself, not as a one-element list. -/
def c6State : FsmState :=
  { name := .vstr "A", is_initial := .vbool false, is_final := .vbool false,
    on_entry_actions := .vstr "x", do_actions := .vlist [],
    on_exit_actions := .vlist [], transitions := [] }

/-- A transition mapping supplying `on_transition` as a bare scalar. -/
def c6TransPairs : List (Node × Node) :=
  [(ks "target_state", .scalar (.vstr "B")),
   (ks "condition", .scalar (.vstr "go")),
   (ks "priority", .scalar (.vint 1)),
   (ks "on_transition", .scalar (.vstr "y"))]

/-- The transition the C6 input parses to. -/
def c6Trans : FsmTransition :=
  { target_state := .vstr "B", condition := .vstr "go", priority := .vint 1,
    on_transition_actions := .vstr "y" }

/-- A transition mapping with only `target_state`. -/
def c4TransTarget : List (Node × Node) :=
  [(ks "target_state", .scalar (.vstr "B"))]

/-- A transition mapping with `target_state` and `condition` but no
`priority`. -/
def c4TransTargetCond : List (Node × Node) :=
  [(ks "target_state", .scalar (.vstr "B")),
   (ks "condition", .scalar (.vstr "go"))]

/-- An FSM body whose first state mapping lacks `name`. -/
def c4Body : List (Node × Node) :=
  [(ks "name", .scalar (.vstr "M")),
   (ks "version", .scalar (.vstr "1")),
   (ks "initial_state", .scalar (.vstr "A")),
   (ks "states", .seq [.map [(ks "is_final", .scalar (.vbool true))]])]

/-- An FSM body whose `states` value is a bare scalar, not a sequence. -/
def c10Body : List (Node × Node) :=
  [(ks "name", .scalar (.vstr "M")),
   (ks "version", .scalar (.vstr "1")),
   (ks "initial_state", .scalar (.vstr "A")),
   (ks "states", .scalar (.vstr "oops"))]

/-- A state mapping whose `transitions` value is a bare scalar. -/
def c10StatePairs : List (Node × Node) :=
  [(ks "name", .scalar (.vstr "A")),
   (ks "transitions", .scalar (.vstr "oops"))]

/-! ## Helper lemmas -/

/-- Every error `_parse_transition` raises is an `FSMParseError`. -/
theorem parse_transition_error_kind (ps : List (Node × Node)) (e : PyErr)
    (h : parse_transition ps = .error e) : e.isFsmParse = true := by
  simp only [parse_transition] at h
  split at h
  · cases h; rfl
  · split at h
    · cases h; rfl
    · split at h
      · cases h; rfl
      · cases h

/-- Every error of the transitions loop is an `FSMParseError`. -/
theorem parse_transition_list_error_kind (ns : List Node) (e : PyErr)
    (h : parse_transition_list ns = .error e) : e.isFsmParse = true := by
  induction ns with
  | nil => simp [parse_transition_list] at h
  | cons n rest ih =>
    match n with
    | .scalar v => exact ih (by simpa [parse_transition_list] using h)
    | .seq es => exact ih (by simpa [parse_transition_list] using h)
    | .map ps =>
      simp only [parse_transition_list] at h
      cases hp : parse_transition ps with
      | error e0 =>
        rw [hp] at h
        cases h
        exact parse_transition_error_kind ps e hp
      | ok t =>
        rw [hp] at h
        cases hl : parse_transition_list rest with
        | error e1 =>
          rw [hl] at h
          cases h
          exact ih hl
        | ok ts => rw [hl] at h; cases h

/-- Every error `_parse_state` raises is an `FSMParseError`. -/
theorem parse_state_error_kind (ps : List (Node × Node)) (e : PyErr)
    (h : parse_state ps = .error e) : e.isFsmParse = true := by
  simp only [parse_state] at h
  split at h
  · cases h; rfl
  · split at h
    · rename_i elems heq
      cases hl : parse_transition_list elems with
      | error e0 =>
        rw [hl] at h
        cases h
        exact parse_transition_list_error_kind elems e hl
      | ok ts => rw [hl] at h; cases h
    · cases h

/-- Every error of the states loop is an `FSMParseError`. -/
theorem parse_state_list_error_kind (init : Value) (ns : List Node) (e : PyErr)
    (h : parse_state_list init ns = .error e) : e.isFsmParse = true := by
  induction ns with
  | nil => simp [parse_state_list] at h
  | cons n rest ih =>
    match n with
    | .scalar v => exact ih (by simpa [parse_state_list] using h)
    | .seq es => exact ih (by simpa [parse_state_list] using h)
    | .map ps =>
      simp only [parse_state_list] at h
      cases hp : parse_state ps with
      | error e0 =>
        rw [hp] at h
        cases h
        exact parse_state_error_kind ps e hp
      | ok st =>
        rw [hp] at h
        cases hl : parse_state_list init rest with
        | error e1 =>
          rw [hl] at h
          cases h
          exact ih hl
        | ok ts => rw [hl] at h; cases h

/-- Every error `_parse_fsm` raises is an `FSMParseError`. -/
theorem parse_fsm_error_kind (ps : List (Node × Node)) (e : PyErr)
    (h : parse_fsm ps = .error e) : e.isFsmParse = true := by
  simp only [parse_fsm] at h
  split at h
  · cases h; rfl
  · split at h
    · cases h; rfl
    · split at h
      · cases h; rfl
      · split at h
        · cases h; rfl
        · split at h
          · rename_i elems heq
            cases hl : parse_state_list (dictGetD (pairsToDict ps) (.vstr "initial_state") .vnull) elems with
            | error e0 =>
              rw [hl] at h
              cases h
              exact parse_state_list_error_kind _ elems e hl
            | ok ts => rw [hl] at h; cases h
          · cases h

/-- Every error `_parse_fsm_beginning` raises is an `FSMParseError` or the
`IndexError` of the positional pair access. -/
theorem parse_fsm_beginning_error_kind (ps : List (Node × Node)) (e : PyErr)
    (h : parse_fsm_beginning ps = .error e) :
    e.isFsmParse = true ∨ e = .indexError := by
  simp only [parse_fsm_beginning] at h
  split at h
  · cases h; exact .inl rfl
  · split at h
    · cases h; exact .inr rfl
    · split at h
      · exact .inl (parse_fsm_error_kind _ e h)
      · cases h; exact .inl rfl

/-- Every error `_convert_ast_to_fsm` raises is an `FSMParseError` or the
positional `IndexError` — never a re-raised adapter error. -/
theorem convert_ast_to_fsm_error_kind (ast : StreamNode) (e : PyErr)
    (h : convert_ast_to_fsm ast = .error e) :
    e.isFsmParse = true ∨ e = .indexError := by
  simp only [convert_ast_to_fsm] at h
  split at h
  · cases h; exact .inl rfl
  · split at h
    · exact parse_fsm_beginning_error_kind _ e h
    · cases h; exact .inl rfl

/-- The fields `_parse_transition` stores on success: each is the raw dict
value (with the dead `data.get` default). -/
theorem parse_transition_fields (ps : List (Node × Node)) (t : FsmTransition)
    (h : parse_transition ps = .ok t) :
    t.target_state = dictGetD (pairsToDict ps) (.vstr "target_state") (.vstr "No target state set")
    ∧ t.condition = dictGetD (pairsToDict ps) (.vstr "condition") (.vstr "No condition set")
    ∧ t.priority = dictGetD (pairsToDict ps) (.vstr "priority") (.vint 0)
    ∧ t.on_transition_actions = dictGetD (pairsToDict ps) (.vstr "on_transition") (.vlist []) := by
  simp only [parse_transition] at h
  split at h
  · cases h
  · split at h
    · cases h
    · split at h
      · cases h
      · cases h; exact ⟨rfl, rfl, rfl, rfl⟩

/-- The fields `_parse_state` stores on success: each scalar-or-list field
is the raw dict value (with its `data.get` default). -/
theorem parse_state_fields (ps : List (Node × Node)) (s : FsmState)
    (h : parse_state ps = .ok s) :
    s.name = dictGetD (pairsToDict ps) (.vstr "name") (.vstr "UnnamedState")
    ∧ s.is_initial = dictGetD (pairsToDict ps) (.vstr "is_initial") (.vbool false)
    ∧ s.is_final = dictGetD (pairsToDict ps) (.vstr "is_final") (.vbool false)
    ∧ s.on_entry_actions = dictGetD (pairsToDict ps) (.vstr "on_entry") (.vlist [])
    ∧ s.do_actions = dictGetD (pairsToDict ps) (.vstr "do") (.vlist [])
    ∧ s.on_exit_actions = dictGetD (pairsToDict ps) (.vstr "on_exit") (.vlist []) := by
  simp only [parse_state] at h
  split at h
  · cases h
  · split at h
    · split at h
      · cases h
      · cases h; exact ⟨rfl, rfl, rfl, rfl, rfl, rfl⟩
    · cases h; exact ⟨rfl, rfl, rfl, rfl, rfl, rfl⟩

/-- The `is_initial` override keeps the state's name. -/
theorem apply_initial_override_name (init : Value) (st : FsmState) :
    (apply_initial_override init st).name = st.name := by
  simp only [apply_initial_override]
  split <;> rfl

/-- Every state the states loop returns comes from `_parse_state` on a
mapping element of the sequence, with the `is_initial` override applied. -/
theorem parse_state_list_mem (init : Value) :
    ∀ (ns : List Node) (sts : List FsmState),
    parse_state_list init ns = .ok sts → ∀ s ∈ sts,
    ∃ ps st0, Node.map ps ∈ ns ∧ parse_state ps = .ok st0
      ∧ s = apply_initial_override init st0 := by
  intro ns
  induction ns with
  | nil =>
    intro sts h s hs
    simp only [parse_state_list] at h
    cases h
    cases hs
  | cons n rest ih =>
    match n with
    | .scalar v =>
      intro sts h s hs
      obtain ⟨ps, st0, hmem, hp, ho⟩ := ih sts (by simpa [parse_state_list] using h) s hs
      exact ⟨ps, st0, List.mem_cons_of_mem _ hmem, hp, ho⟩
    | .seq es =>
      intro sts h s hs
      obtain ⟨ps, st0, hmem, hp, ho⟩ := ih sts (by simpa [parse_state_list] using h) s hs
      exact ⟨ps, st0, List.mem_cons_of_mem _ hmem, hp, ho⟩
    | .map ps =>
      intro sts h s hs
      simp only [parse_state_list] at h
      split at h
      · cases h
      · rename_i st hst
        split at h
        · cases h
        · rename_i sts' hsts
          cases h
          rcases List.mem_cons.mp hs with hs | hs
          · exact ⟨ps, st, List.mem_cons_self _ _, hst, hs⟩
          · obtain ⟨ps', st0, hmem, hp, ho⟩ := ih sts' hsts s hs
            exact ⟨ps', st0, List.mem_cons_of_mem _ hmem, hp, ho⟩

/-! ## Claim theorems -/

/-- C1 (code_bug record).  The round-trip law fails on the code.  First,
the YAML renderer reads `fsm.description`, `state.description` and
`transition.description`, none of which exist on the `fsmdomainmodel.py`
dataclasses (`Fsm` here), so in the current code `render(parse(doc))`
raises `AttributeError` for every document.  Second, even over the intended
description-carrying IR (`FsmD`), re-parsing the renderer's output fails
for a valid document with an empty `states` sequence: this theorem shows
that `c1OrigBody` parses successfully to an IR with no states, while the
root mapping denoted by the rendered output of its intended-model image
`c1Fsm` omits the `states` key, so the Builder rejects it. -/
theorem c1_roundtrip_fails : parse_fsm c1OrigBody =
      .ok { name := .vstr "M", version := "1", initial_state := .vstr "A", states := [] }
    ∧ parse_fsm_beginning (fsm2yaml_root_ast c1Fsm) =
      .error (.fsmParse "FSM must have a 'states' field") := by
  constructor
  · rfl
  · rfl

/-- C2 (code_bug record).  No entity of the parsed IR carries a
`description` field: the `fsmdomainmodel.py` dataclasses declare none (the
`Fsm`, `FsmState`, `FsmTransition` structures of this file mirror them
field-for-field), and the parser `fsmtool.py` uses never reads the input's
`description` entries — parsing a document with descriptions at the FSM,
state and transition level yields exactly the same IR as parsing the same
document with every `description` entry removed. -/
theorem c2_description_not_carried :
    parse_fsm c2BodyWithDesc = parse_fsm c2BodyNoDesc
    ∧ parse_fsm c2BodyWithDesc = .ok c2Fsm := by
  constructor
  · rfl
  · rfl

/-- C8 (code_bug record).  `main` returns 1 on any parse or generation
error with the message on stderr and 0 on success, but the module entry
point `if __name__ == "__main__": main()` discards that return value, so
the process exit status is 0 in every case — contrary to the claimed
exit-code contract. -/
theorem c8_exit_code_always_zero :
    (∀ p g, script_exit_code p g = 0)
    ∧ (∀ e g, mainFn (.error e) g = (1, ["Error: " ++ e.message]))
    ∧ (∀ f m, mainFn (.ok f) (.error m) = (1, ["Error: " ++ m]))
    ∧ (∀ f, mainFn (.ok f) (.ok ()) = (0, [])) :=
  ⟨fun _ _ => rfl, fun _ _ => rfl, fun _ _ => rfl, fun _ => rfl⟩

/-- C9 counterexample.  A failure of the underlying YAML tree reader is
not re-wrapped: `parse_string` propagates it as the underlying
`yaml.YAMLError`, which is not in the `FSMParseError` family. -/
theorem c9_not_wrapped_cex :
    parse_string (.error c9YamlMsg) = .error (.yamlError c9YamlMsg)
    ∧ (PyErr.yamlError c9YamlMsg).isFsmParse = false := ⟨rfl, rfl⟩

/-- C9 amended.  Tree-read failures propagate unchanged through
`parse_string` and `parse_file` as the underlying exception kinds
(`yaml.YAMLError`, `OSError`/`FileNotFoundError`); only the validation the
Builder itself performs after a successful tree read raises the
`FSMParseError` family (or the positional-access `IndexError` of
`_parse_fsm_beginning`). -/
theorem c9_error_propagation_amended :
    (∀ e, parse_string (.error e) = .error (.yamlError e))
    ∧ (∀ m, parse_file (.fileError m) = .error (.osError m))
    ∧ (∀ m, parse_file (.yamlFailure m) = .error (.yamlError m))
    ∧ (∀ ast, parse_string (.ok ast) = convert_ast_to_fsm ast)
    ∧ (∀ ast e, convert_ast_to_fsm ast = .error e →
         e.isFsmParse = true ∨ e = .indexError) :=
  ⟨fun _ => rfl, fun _ => rfl, fun _ => rfl, fun _ => rfl,
   fun ast e h => convert_ast_to_fsm_error_kind ast e h⟩

/-- C9 witness: the amended theorem applied at concrete inputs — an adapter
failure passes through unchanged, and a concrete validation failure (an
empty stream) is an `FSMParseError`. -/
theorem c9_error_propagation_amended_witness :
    parse_string (.error c9YamlMsg) = .error (.yamlError c9YamlMsg)
    ∧ ((PyErr.fsmParse "Empty FSM file").isFsmParse = true
       ∨ PyErr.fsmParse "Empty FSM file" = .indexError) :=
  ⟨c9_error_propagation_amended.1 c9YamlMsg,
   c9_error_propagation_amended.2.2.2.2 ⟨[]⟩ (.fsmParse "Empty FSM file") rfl⟩

/-- C3 counterexample.  A state whose name differs from `initial_state`
keeps an explicit `is_initial: true` from the input: parsing `c3Body`
(`initial_state: A`, one state `B` with `is_initial: true`) returns state
`B` with `is_initial` still true although `B ≠ A` — the claimed equality
`is_initial = (state.name == fsm.initial_state)` fails. -/
theorem c3_is_initial_not_cleared_cex :
    parse_fsm c3Body = .ok c3Fsm
    ∧ c3StateB ∈ c3Fsm.states
    ∧ c3StateB.is_initial = .vbool true
    ∧ c3StateB.name ≠ c3Fsm.initial_state := by decide

/-- C3 amended.  The Builder forces `is_initial = True` exactly on states
whose name equals `initial_state`, but it never clears the flag: a state
whose name differs keeps the raw `is_initial` value supplied by the input
(default `False`). -/
theorem c3_is_initial_amended (ps : List (Node × Node)) (elems : List Node) (fsm : Fsm)
    (hfind : findValueByKey ps "states" = some (.seq elems))
    (hp : parse_fsm ps = .ok fsm) :
    ∀ s ∈ fsm.states,
      (s.name = fsm.initial_state → s.is_initial = .vbool true)
      ∧ (s.name ≠ fsm.initial_state →
          ∃ m, Node.map m ∈ elems ∧ parse_state m = .ok s
            ∧ s.is_initial = dictGetD (pairsToDict m) (.vstr "is_initial") (.vbool false)) := by
  simp only [parse_fsm] at hp
  split at hp
  · cases hp
  · split at hp
    · cases hp
    · split at hp
      · cases hp
      · split at hp
        · cases hp
        · split at hp
          · rename_i elems' heq
            rw [hfind] at heq
            injection heq with heq
            injection heq with heq
            subst heq
            split at hp
            · cases hp
            · rename_i sts hsts
              cases hp
              intro s hs
              obtain ⟨m, st0, hmem, hps, hov⟩ := parse_state_list_mem _ elems sts hsts s hs
              by_cases h0 : st0.name = dictGetD (pairsToDict ps) (.vstr "initial_state") .vnull
              · have hs_eq : s = { st0 with is_initial := .vbool true } := by
                  rw [hov]
                  simp [apply_initial_override, h0]
                constructor
                · intro _
                  rw [hs_eq]
                · intro hne
                  exfalso
                  apply hne
                  show s.name = dictGetD (pairsToDict ps) (.vstr "initial_state") .vnull
                  rw [hs_eq]
                  exact h0
              · have hs_eq : s = st0 := by
                  rw [hov]
                  simp [apply_initial_override, h0]
                constructor
                · intro hname
                  exfalso
                  apply h0
                  rw [← hs_eq]
                  exact hname
                · intro _
                  rw [hs_eq]
                  refine ⟨m, hmem, hps, ?_⟩
                  exact (parse_state_fields m st0 hps).2.1
          · rename_i hnone
            exfalso
            exact hnone elems hfind

/-- C3 witness: the amended theorem applied to the C3 document — the
non-matching state `B` is exactly `_parse_state`'s output on its input
mapping, its `is_initial` equal to the raw input value. -/
theorem c3_is_initial_amended_witness :
    ∃ m, Node.map m ∈ c3Elems ∧ parse_state m = .ok c3StateB
      ∧ c3StateB.is_initial = dictGetD (pairsToDict m) (.vstr "is_initial") (.vbool false) :=
  (c3_is_initial_amended c3Body c3Elems c3Fsm (by decide) (by decide)
    c3StateB (by decide)).2 (by decide)

/-- C4 (confirmed).  A state mapping lacking `name`, and a transition
mapping lacking `target_state`, `condition` (when `target_state` is
present) or `priority` (when the other two are present), each make the
Builder return an `FSMParseError` whose message names the missing field;
the final conjunct shows the first such violation aborting a whole
`_parse_fsm` run with that same error and no IR. -/
theorem c4_missing_field_errors :
    (∀ ps, dictHasKey (pairsToDict ps) (.vstr "name") = false →
       parse_state ps = .error (.fsmParse "A state must have a 'name' field"))
    ∧ (∀ ps, dictHasKey (pairsToDict ps) (.vstr "target_state") = false →
       parse_transition ps = .error (.fsmParse "Transition must have a 'target_state' field"))
    ∧ (∀ ps, dictHasKey (pairsToDict ps) (.vstr "target_state") = true →
       dictHasKey (pairsToDict ps) (.vstr "condition") = false →
       parse_transition ps = .error (.fsmParse "Transition must have a 'condition' field"))
    ∧ (∀ ps, dictHasKey (pairsToDict ps) (.vstr "target_state") = true →
       dictHasKey (pairsToDict ps) (.vstr "condition") = true →
       dictHasKey (pairsToDict ps) (.vstr "priority") = false →
       parse_transition ps = .error (.fsmParse "Transition must have a 'priority' field"))
    ∧ (∀ ps m rest,
       dictHasKey (pairsToDict ps) (.vstr "name") = true →
       dictHasKey (pairsToDict ps) (.vstr "version") = true →
       dictHasKey (pairsToDict ps) (.vstr "initial_state") = true →
       dictHasKey (pairsToDict ps) (.vstr "states") = true →
       findValueByKey ps "states" = some (.seq (.map m :: rest)) →
       dictHasKey (pairsToDict m) (.vstr "name") = false →
       parse_fsm ps = .error (.fsmParse "A state must have a 'name' field")) := by
  refine ⟨?_, ?_, ?_, ?_, ?_⟩
  · intro ps h
    simp [parse_state, h]
  · intro ps h
    simp [parse_transition, h]
  · intro ps h1 h2
    simp [parse_transition, h1, h2]
  · intro ps h1 h2 h3
    simp [parse_transition, h1, h2, h3]
  · intro ps m rest h1 h2 h3 h4 hfind hname
    simp only [parse_fsm]
    rw [if_neg (by simp [h1]), if_neg (by simp [h2]), if_neg (by simp [h3]),
        if_neg (by simp [h4])]
    split
    · rename_i elems' heq
      rw [hfind] at heq
      injection heq with heq
      injection heq with heq
      subst heq
      simp [parse_state_list, parse_state, hname]
    · rename_i hnone
      exact absurd hfind (hnone (.map m :: rest))

/-- C4 witness: the theorem applied at concrete mappings with the
respective field missing, and at a whole document whose first state lacks
`name`. -/
theorem c4_missing_field_errors_witness :
    parse_state [] = .error (.fsmParse "A state must have a 'name' field")
    ∧ parse_transition [] = .error (.fsmParse "Transition must have a 'target_state' field")
    ∧ parse_transition c4TransTarget = .error (.fsmParse "Transition must have a 'condition' field")
    ∧ parse_transition c4TransTargetCond = .error (.fsmParse "Transition must have a 'priority' field")
    ∧ parse_fsm c4Body = .error (.fsmParse "A state must have a 'name' field") :=
  ⟨c4_missing_field_errors.1 [] (by decide),
   c4_missing_field_errors.2.1 [] (by decide),
   c4_missing_field_errors.2.2.1 c4TransTarget (by decide) (by decide),
   c4_missing_field_errors.2.2.2.1 c4TransTargetCond (by decide) (by decide) (by decide),
   c4_missing_field_errors.2.2.2.2 c4Body [(ks "is_final", .scalar (.vbool true))] []
     (by decide) (by decide) (by decide) (by decide) (by decide) (by decide)⟩

/-- C5 counterexample.  With the two top-level keys in the order
`statemachine` first, `fsmformat` second, the `statemachine` key maps to a
valid mapping body, yet the Builder raises the structure error: it selects
the body positionally (`pairs[1]` because `fsmformat` is present) rather
than by key. -/
theorem c5_statemachine_order_cex :
    findValueByKey c5Root "statemachine" = some (.map c1OrigBody)
    ∧ parse_fsm_beginning c5Root = .error (.fsmParse "FSM definition must be a mapping") := by
  constructor
  · rfl
  · rfl

/-- C5 amended.  `_parse_fsm_beginning` checks that the `statemachine` key
exists, then selects the FSM body positionally — the second pair when a
`fsmformat` key exists, the first pair otherwise — parsing it when it is a
mapping and raising the structure error when it is not; only for documents
whose keys follow the documented layout does this coincide with the
`statemachine` key's value. -/
theorem c5_positional_body_lookup_amended :
    (∀ ps, dictHasKey (pairsToDict ps) (.vstr "statemachine") = false →
       parse_fsm_beginning ps =
         .error (.fsmParse "FSM definition must start with the 'statemachine' key"))
    ∧ (∀ ps k m, dictHasKey (pairsToDict ps) (.vstr "statemachine") = true →
       dictHasKey (pairsToDict ps) (.vstr "fsmformat") = true →
       ps[1]? = some (k, .map m) →
       parse_fsm_beginning ps = parse_fsm m)
    ∧ (∀ ps k m, dictHasKey (pairsToDict ps) (.vstr "statemachine") = true →
       dictHasKey (pairsToDict ps) (.vstr "fsmformat") = false →
       ps[0]? = some (k, .map m) →
       parse_fsm_beginning ps = parse_fsm m)
    ∧ (∀ ps k v, dictHasKey (pairsToDict ps) (.vstr "statemachine") = true →
       ps[(if dictHasKey (pairsToDict ps) (.vstr "fsmformat") then 1 else 0)]? = some (k, v) →
       (∀ m, v ≠ .map m) →
       parse_fsm_beginning ps = .error (.fsmParse "FSM definition must be a mapping")) := by
  refine ⟨?_, ?_, ?_, ?_⟩
  · intro ps h
    simp [parse_fsm_beginning, h]
  · intro ps k m h1 h2 hget
    simp [parse_fsm_beginning, h1, h2, hget]
  · intro ps k m h1 h2 hget
    simp [parse_fsm_beginning, h1, h2, hget]
  · intro ps k v h1 hget hv
    simp only [parse_fsm_beginning]
    rw [if_neg (by simp [h1])]
    rw [hget]
    cases v with
    | scalar sv => rfl
    | seq es => rfl
    | map mm => exact absurd rfl (hv mm)

/-- C5 witness: the amended theorem applied to a root whose only pair is
`statemachine` mapped to a valid body. -/
theorem c5_positional_body_lookup_amended_witness :
    parse_fsm_beginning [(ks "statemachine", .map c1OrigBody)] = parse_fsm c1OrigBody :=
  c5_positional_body_lookup_amended.2.2.1 [(ks "statemachine", .map c1OrigBody)]
    (ks "statemachine") c1OrigBody (by decide) (by decide) (by decide)

/-- C6 counterexample.  An action-list field supplied as a bare scalar is
stored as that scalar, not coerced into a one-element list: parsing a state
with `on_entry: x` yields `on_entry_actions = "x"`, not `["x"]`. -/
theorem c6_scalar_not_coerced_cex :
    parse_state c6StatePairs = .ok c6State
    ∧ c6State.on_entry_actions = .vstr "x"
    ∧ c6State.on_entry_actions ≠ .vlist [.vstr "x"] := by decide

/-- C6 amended.  An absent action-list field defaults to an empty list, and
a present one is stored exactly as the input supplied it (`data.get` with
an empty-list default and no coercion) — a bare scalar therefore stays a
scalar. -/
theorem c6_action_fields_amended :
    (∀ ps s, parse_state ps = .ok s →
       s.on_entry_actions = dictGetD (pairsToDict ps) (.vstr "on_entry") (.vlist [])
       ∧ s.do_actions = dictGetD (pairsToDict ps) (.vstr "do") (.vlist [])
       ∧ s.on_exit_actions = dictGetD (pairsToDict ps) (.vstr "on_exit") (.vlist []))
    ∧ (∀ ps t, parse_transition ps = .ok t →
       t.on_transition_actions = dictGetD (pairsToDict ps) (.vstr "on_transition") (.vlist [])) :=
  ⟨fun ps s h =>
    ⟨(parse_state_fields ps s h).2.2.2.1,
     (parse_state_fields ps s h).2.2.2.2.1,
     (parse_state_fields ps s h).2.2.2.2.2⟩,
   fun ps t h => (parse_transition_fields ps t h).2.2.2⟩

/-- C6 witness: the amended theorem applied to the scalar-valued `on_entry`
state and a scalar-valued `on_transition` transition. -/
theorem c6_action_fields_amended_witness :
    (c6State.on_entry_actions = dictGetD (pairsToDict c6StatePairs) (.vstr "on_entry") (.vlist [])
     ∧ c6State.do_actions = dictGetD (pairsToDict c6StatePairs) (.vstr "do") (.vlist [])
     ∧ c6State.on_exit_actions = dictGetD (pairsToDict c6StatePairs) (.vstr "on_exit") (.vlist []))
    ∧ c6Trans.on_transition_actions =
        dictGetD (pairsToDict c6TransPairs) (.vstr "on_transition") (.vlist []) :=
  ⟨c6_action_fields_amended.1 c6StatePairs c6State (by decide),
   c6_action_fields_amended.2 c6TransPairs c6Trans (by decide)⟩

/-- C10 (confirmed).  When the FSM body's `states` value is present but not
a sequence, `_parse_fsm` succeeds with an empty state list; when a state's
`transitions` value is present but not a sequence, `_parse_state` succeeds
with no transitions — no error in either case. -/
theorem c10_nonsequence_states_transitions :
    (∀ ps n, dictHasKey (pairsToDict ps) (.vstr "name") = true →
       dictHasKey (pairsToDict ps) (.vstr "version") = true →
       dictHasKey (pairsToDict ps) (.vstr "initial_state") = true →
       dictHasKey (pairsToDict ps) (.vstr "states") = true →
       findValueByKey ps "states" = some n → (∀ es, n ≠ .seq es) →
       parse_fsm ps = .ok
         { name := dictGetD (pairsToDict ps) (.vstr "name") .vnull,
           version := pyStr (dictGetD (pairsToDict ps) (.vstr "version") .vnull),
           initial_state := dictGetD (pairsToDict ps) (.vstr "initial_state") .vnull,
           states := [] })
    ∧ (∀ ps n, dictHasKey (pairsToDict ps) (.vstr "name") = true →
       findValueByKey ps "transitions" = some n → (∀ es, n ≠ .seq es) →
       parse_state ps = .ok
         { name := dictGetD (pairsToDict ps) (.vstr "name") (.vstr "UnnamedState"),
           is_initial := dictGetD (pairsToDict ps) (.vstr "is_initial") (.vbool false),
           is_final := dictGetD (pairsToDict ps) (.vstr "is_final") (.vbool false),
           on_entry_actions := dictGetD (pairsToDict ps) (.vstr "on_entry") (.vlist []),
           do_actions := dictGetD (pairsToDict ps) (.vstr "do") (.vlist []),
           on_exit_actions := dictGetD (pairsToDict ps) (.vstr "on_exit") (.vlist []),
           transitions := [] }) := by
  constructor
  · intro ps n h1 h2 h3 h4 hfind hn
    simp only [parse_fsm]
    rw [if_neg (by simp [h1]), if_neg (by simp [h2]), if_neg (by simp [h3]),
        if_neg (by simp [h4])]
    split
    · rename_i elems heq
      rw [hfind] at heq
      injection heq with heq
      exact absurd heq (hn elems)
    · rfl
  · intro ps n h1 hfind hn
    simp only [parse_state]
    rw [if_neg (by simp [h1])]
    split
    · rename_i elems heq
      rw [hfind] at heq
      injection heq with heq
      exact absurd heq (hn elems)
    · rfl

/-- C10 witness: the theorem applied to a body with `states: oops` and a
state with `transitions: oops`. -/
theorem c10_nonsequence_states_transitions_witness :
    parse_fsm c10Body = .ok
      { name := .vstr "M", version := "1", initial_state := .vstr "A", states := [] }
    ∧ parse_state c10StatePairs = .ok
      { name := .vstr "A", is_initial := .vbool false, is_final := .vbool false,
        on_entry_actions := .vlist [], do_actions := .vlist [],
        on_exit_actions := .vlist [], transitions := [] } := by
  constructor
  · have h := c10_nonsequence_states_transitions.1 c10Body (.scalar (.vstr "oops"))
      (by decide) (by decide) (by decide) (by decide) (by decide)
      (fun es hes => by cases hes)
    exact h.trans (by decide)
  · have h := c10_nonsequence_states_transitions.2 c10StatePairs (.scalar (.vstr "oops"))
      (by decide) (by decide) (fun es hes => by cases hes)
    exact h.trans (by decide)

/-- C7 (confirmed).  Each renderer is a pure function of the IR and the
generation timestamp, and the timestamp reaches exactly one header-comment
line: for a fixed IR the output lines factor as a prefix and suffix that do
not depend on the timestamp, around the single timestamp line. -/
theorem c7_renderers_pure_modulo_timestamp (fsm : FsmD) :
    (∃ p q, ∀ t, plantuml_lines fsm t = p ++ ("Generated on: " ++ t) :: q)
    ∧ (∃ p q, ∀ t, stateflow_lines fsm t = p ++ ("%% Generated on: " ++ t) :: q)
    ∧ (∃ p q, ∀ t, yaml_lines fsm t = p ++ ("# Generated on " ++ t) :: q) := by
  refine ⟨⟨["/" ++ quotes81, "PlantUML description of FSM.", "State machine: " ++ fsm.name,
            "Version: " ++ fsm.version, "Description: " ++ fsm.description],
           [quotes81 ++ "/", "", "@startuml", "hide empty description", ""]
             ++ plantuml_fsm fsm ++ plantuml_footer fsm,
           fun t => ?_⟩,
         ⟨[pct80, "%% Stateflow Chart Generation Script", "%% State Machine: " ++ fsm.name,
           "%% Version: " ++ fsm.version],
          [pct80, "", "% Clean up workspace", "close all;", "bdclose all;", ""]
            ++ stateflow_model_creation fsm ++ stateflow_states fsm
            ++ stateflow_transitions fsm ++ stateflow_initial_state fsm
            ++ stateflow_footer fsm,
          fun t => ?_⟩,
         ⟨[hash80],
          [hash80, "", "%YAML 1.2", "---", "", hash80,
           "# Start of Finite State Machine: " ++ fsm.name, hash80]
            ++ yaml_fsm fsm ++ yaml_footer fsm,
          fun t => ?_⟩⟩
  · simp [plantuml_lines, plantuml_header]
  · simp [stateflow_lines, stateflow_header]
  · simp [yaml_lines, yaml_header]

end FsmTool
